import Mathlib

set_option maxRecDepth 100000

/-!
Verification of the Economic Calendar Parser (calendar.py).

The definitions below are a shallow embedding of the program's core
pipeline: identity hashing (sha1_id), numeric shorthand parsing
(parse_number), time normalization (convert_time), the per-row event
normalization loops of the two providers, and the notification filter
(notify_upcoming).  Machine-level behaviour of external libraries
(hashlib, dateutil, int/float parsing) is modelled explicitly; each
such model carries a doc comment saying what it stands for.

Conventions:
* Python None / falsy values are modelled with Option / explicit tests.
* A Python exception escaping a function is modelled by the function
  returning none (the surrounding code paths say where this applies).
* Instants are integers counting minutes; the calendar arithmetic uses
  the standard era-based civil-date algorithms.
* Python floats are modelled as exact rationals; every numeric claim
  checked here is exact in IEEE double as well.
-/

/-! ### SHA-1 (model of hashlib.sha1, bytes as Nat < 256, words as Nat < 2^32) -/

/-- 32-bit truncation. -/
def trunc32 (x : Nat) : Nat := x % 4294967296

/-- Rotate a 32-bit word left by k bits. -/
def rotl32 (k x : Nat) : Nat := trunc32 ((x <<< k) ||| (x >>> (32 - k)))

/-- Big-endian bytes of an 8-byte (64-bit) quantity. -/
def be64 (n : Nat) : List Nat :=
  [ (n >>> 56) % 256, (n >>> 48) % 256, (n >>> 40) % 256, (n >>> 32) % 256,
    (n >>> 24) % 256, (n >>> 16) % 256, (n >>> 8) % 256, n % 256 ]

/-- SHA-1 padding: append 0x80, zero bytes to 56 mod 64, then the
bit length as 8 big-endian bytes. -/
def sha1Pad (msg : List Nat) : List Nat :=
  let len := msg.length
  let padZeros := (119 - len % 64) % 64
  msg ++ [128] ++ List.replicate padZeros 0 ++ be64 (len * 8)

/-- Group bytes into big-endian 32-bit words. -/
def toWords : List Nat → List Nat
  | b0 :: b1 :: b2 :: b3 :: rest =>
      (b0 * 16777216 + b1 * 65536 + b2 * 256 + b3) :: toWords rest
  | _ => []

/-- Extend the 16 chunk words, appending one scheduled word per step. -/
def sha1Extend (w : List Nat) : Nat → List Nat
  | 0 => w
  | n + 1 =>
      let i := w.length
      let nw := rotl32 1 ((w.getD (i - 3) 0) ^^^ (w.getD (i - 8) 0) ^^^
                          (w.getD (i - 14) 0) ^^^ (w.getD (i - 16) 0))
      sha1Extend (w ++ [nw]) n

/-- Round function of SHA-1. -/
def sha1F (t b c d : Nat) : Nat :=
  if t < 20 then (b &&& c) ||| ((b ^^^ 4294967295) &&& d)
  else if t < 40 then b ^^^ c ^^^ d
  else if t < 60 then (b &&& c) ||| (b &&& d) ||| (c &&& d)
  else b ^^^ c ^^^ d

/-- Round constants of SHA-1. -/
def sha1K (t : Nat) : Nat :=
  if t < 20 then 1518500249
  else if t < 40 then 1859775393
  else if t < 60 then 2400959708
  else 3395469782

/-- State of the five working registers. -/
abbrev Sha1State := Nat × Nat × Nat × Nat × Nat

/-- The 80 rounds over the scheduled words of one chunk. -/
def sha1Rounds (ws : List (Nat × Nat)) (st : Sha1State) : Sha1State :=
  ws.foldl (fun st tw =>
    let (a, b, c, d, e) := st
    let tmp := trunc32 (rotl32 5 a + sha1F tw.1 b c d + e + sha1K tw.1 + tw.2)
    (tmp, a, rotl32 30 b, c, d)) st

/-- Process the padded message 64 bytes at a time (fuel-indexed for
structural recursion; the fuel is always at least the chunk count). -/
def sha1Chunks : Nat → List Nat → Sha1State → Sha1State
  | 0, _, st => st
  | _ + 1, [], st => st
  | fuel + 1, bytes, st =>
      let ws := sha1Extend (toWords (bytes.take 64)) 64
      let (a, b, c, d, e) := sha1Rounds ((List.range 80).zip ws) st
      let (h0, h1, h2, h3, h4) := st
      sha1Chunks fuel (bytes.drop 64)
        (trunc32 (h0 + a), trunc32 (h1 + b), trunc32 (h2 + c),
         trunc32 (h3 + d), trunc32 (h4 + e))

/-- Hexadecimal digit character (0-9 then lowercase a-f). -/
def hexDigit (n : Nat) : Char :=
  if n < 10 then Char.ofNat (48 + n) else Char.ofNat (87 + n)

/-- Fixed-width lowercase hexadecimal rendering. -/
def hexChars : Nat → Nat → List Char
  | 0, _ => []
  | k + 1, n => hexChars k (n / 16) ++ [hexDigit (n % 16)]

/-- Model of hashlib.sha1 over a byte list, returning the 40-character
lowercase hex digest. -/
def sha1Hex (msg : List Nat) : String :=
  let padded := sha1Pad msg
  let (h0, h1, h2, h3, h4) :=
    sha1Chunks padded.length padded
      (1732584193, 4023233417, 2562383102, 271733878, 3285377520)
  ⟨hexChars 8 h0 ++ hexChars 8 h1 ++ hexChars 8 h2 ++ hexChars 8 h3 ++ hexChars 8 h4⟩

/-- UTF-8 bytes of one character. -/
def utf8Char (c : Char) : List Nat :=
  let n := c.toNat
  if n < 128 then [n]
  else if n < 2048 then [192 + n / 64, 128 + n % 64]
  else if n < 65536 then [224 + n / 4096, 128 + (n / 64) % 64, 128 + n % 64]
  else [240 + n / 262144, 128 + (n / 4096) % 64, 128 + (n / 64) % 64, 128 + n % 64]

/-- Model of str.encode with the utf-8 codec. -/
def utf8Bytes (s : String) : List Nat :=
  s.toList.foldr (fun c acc => utf8Char c ++ acc) []

/-! ### sha1_id (calendar.py lines 40-43) -/

/-- Python truthiness filter over an optional string argument:
None and the empty string are dropped, any other string is kept
(str(a) is the identity on the strings passed at the call sites). -/
def truthyStr : Option String → Option String
  | none => none
  | some s => if s = "" then none else some s

/-- The joined text hashed by sha1_id: the truthy arguments joined
with the pipe delimiter. -/
def joinTruthy (args : List (Option String)) : String :=
  String.intercalate "|" (args.filterMap truthyStr)

/-- Embedding of sha1_id (calendar.py lines 40-43): join the truthy
arguments with the pipe character, encode as UTF-8, hash with SHA-1,
return the hex digest. -/
def sha1_id (args : List (Option String)) : String :=
  sha1Hex (utf8Bytes (joinTruthy args))

/-! ### Civil-calendar arithmetic (minutes since 0000-03-01 00:00) -/

/-- Day count of a proleptic-Gregorian civil date, measured from
0000-03-01 (era-based algorithm, valid for year at least 1). -/
def daysFromCivil (y m d : Nat) : Nat :=
  let yy := if m ≤ 2 then y - 1 else y
  let era := yy / 400
  let yoe := yy % 400
  let mp := if 2 < m then m - 3 else m + 9
  let doy := (153 * mp + 2) / 5 + d - 1
  let doe := yoe * 365 + yoe / 4 - yoe / 100 + doy
  era * 146097 + doe

/-- Civil date (year, month, day) of a day count from 0000-03-01. -/
def civilFromDays (z : Nat) : Nat × Nat × Nat :=
  let era := z / 146097
  let doe := z % 146097
  let yoe := (doe - doe / 1460 + doe / 36524 - doe / 146096) / 365
  let y := yoe + era * 400
  let doy := doe - (365 * yoe + yoe / 4 - yoe / 100)
  let mp := (5 * doy + 2) / 153
  let d := doy - (153 * mp + 2) / 5 + 1
  let m := if mp < 10 then mp + 3 else mp - 9
  (if m ≤ 2 then y + 1 else y, m, d)

/-- Whether a year is a Gregorian leap year. -/
def isLeap (y : Nat) : Bool :=
  y % 4 = 0 && (y % 100 != 0 || y % 400 = 0)

/-- Number of days in a month. -/
def daysInMonth (y m : Nat) : Nat :=
  if m = 2 then (if isLeap y then 29 else 28)
  else if m = 4 ∨ m = 6 ∨ m = 9 ∨ m = 11 then 30
  else 31

/-- Numeric value of a decimal digit character. -/
def digitVal (c : Char) : Nat := c.toNat - 48

/-- Two decimal digit characters as a number. -/
def d2n (a b : Char) : Option Nat :=
  if a.isDigit ∧ b.isDigit then some (digitVal a * 10 + digitVal b) else none

/-- Four decimal digit characters as a number. -/
def d4n (a b c d : Char) : Option Nat :=
  if a.isDigit ∧ b.isDigit ∧ c.isDigit ∧ d.isDigit then
    some (((digitVal a * 10 + digitVal b) * 10 + digitVal c) * 10 + digitVal d)
  else none

/-- Minutes since 0000-03-01 00:00 of a civil date-time. -/
def civilMinutes (y mo d h mi : Nat) : Nat :=
  daysFromCivil y mo d * 1440 + h * 60 + mi

/-- Validity of the calendar components of a parsed date-time. -/
def validCivil (y mo d h mi : Nat) : Bool :=
  1 ≤ y && y ≤ 9999 && 1 ≤ mo && mo ≤ 12 && 1 ≤ d && d ≤ daysInMonth y mo &&
  h ≤ 23 && mi ≤ 59

/-- Modelled from the external library dateutil.parser.parse, restricted
to the fixed format YYYY-MM-DD HH:MM actually exercised here: returns
the naive wall-clock time in minutes, or none where the real parser
raises ParserError (any other shape of input is mapped to none). -/
def dateParse (s : String) : Option Nat :=
  match s.toList with
  | [y1, y2, y3, y4, '-', m1, m2, '-', e1, e2, ' ', h1, h2, ':', n1, n2] =>
      match d4n y1 y2 y3 y4, d2n m1 m2, d2n e1 e2, d2n h1 h2, d2n n1 n2 with
      | some y, some mo, some d, some h, some mi =>
          if validCivil y mo d h mi then some (civilMinutes y mo d h mi) else none
      | _, _, _, _, _ => none
  | _ => none

/-- Modelled from the external library dateutil.parser.parse applied to
the ISO strings that this program itself stores in time_utc
(YYYY-MM-DDTHH:MM:SS+HH:MM with zero seconds, minute granularity):
returns the absolute instant in minutes, or none where the real parser
raises. -/
def isoParse (s : String) : Option Int :=
  match s.toList with
  | [y1, y2, y3, y4, '-', m1, m2, '-', e1, e2, 'T', h1, h2, ':', n1, n2,
     ':', '0', '0', os, o1, o2, ':', p1, p2] =>
      match d4n y1 y2 y3 y4, d2n m1 m2, d2n e1 e2, d2n h1 h2, d2n n1 n2,
            d2n o1 o2, d2n p1 p2 with
      | some y, some mo, some d, some h, some mi, some oh, some om =>
          if validCivil y mo d h mi then
            let naive : Int := civilMinutes y mo d h mi
            let off : Int := oh * 60 + om
            if os = '+' then some (naive - off)
            else if os = '-' then some (naive + off)
            else none
          else none
      | _, _, _, _, _, _, _ => none
  | _ => none

/-- Left-pad a number to two digits. -/
def pad2 (n : Nat) : String :=
  if n < 10 then "0" ++ toString n else toString n

/-- Left-pad a number to four digits. -/
def pad4 (n : Nat) : String :=
  if n < 10 then "000" ++ toString n
  else if n < 100 then "00" ++ toString n
  else if n < 1000 then "0" ++ toString n
  else toString n

/-- Modelled from datetime.isoformat on an aware UTC datetime with zero
seconds and microseconds: ISO-8601 with the +00:00 offset. -/
def utcIsoformat (t : Int) : String :=
  let w := t.toNat
  let (y, mo, d) := civilFromDays (w / 1440)
  pad4 y ++ "-" ++ pad2 mo ++ "-" ++ pad2 d ++ "T" ++
    pad2 (w % 1440 / 60) ++ ":" ++ pad2 (w % 1440 % 60) ++ ":00+00:00"

/-- Modelled from datetime.strftime with format %Y-%m-%d %H:%M, applied
to the wall-clock minutes of the display zone. -/
def strftimeYMDHM (t : Int) : String :=
  let w := t.toNat
  let (y, mo, d) := civilFromDays (w / 1440)
  pad4 y ++ "-" ++ pad2 mo ++ "-" ++ pad2 d ++ " " ++
    pad2 (w % 1440 / 60) ++ ":" ++ pad2 (w % 1440 % 60)

/-- Modelled from the external library dateutil.tz.gettz: the fixed
UTC offset in minutes of the zones this program names (the seasonal
component of real zones is not modelled), and none for an unknown
zone name, exactly as gettz returns None. -/
def gettz (s : String) : Option Int :=
  if s = "UTC" then some 0
  else if s = "America/New_York" then some (-300)
  else if s = "Europe/Madrid" then some 60
  else none

/-- Modelled from the runtime environment: the system local timezone
offset that Python assumes for naive datetimes (fixed to UTC here;
no claim below depends on its value). -/
def localOffset : Int := 0

/-! ### convert_time (calendar.py lines 64-77) -/

/-- Embedding of convert_time (calendar.py lines 64-77).  A parse
failure raises inside the try block, so the except branch returns
(None, None).  When tz_from is truthy but unknown, gettz gives None,
replace(tzinfo=None) leaves a naive datetime and astimezone then
presumes the system-local zone; an unknown tz_to makes
astimezone(None) render in the system-local zone.  No exception can
escape. -/
def convert_time (dt_str tz_from tz_to : String) : Option String × Option String :=
  match dateParse dt_str with
  | none => (none, none)
  | some naive =>
      let inst : Int :=
        if tz_from ≠ "" then
          match gettz tz_from with
          | some off => (naive : Int) - off
          | none => (naive : Int) - localOffset
        else (naive : Int)
      let locOff : Int := (gettz tz_to).getD localOffset
      (some (utcIsoformat inst), some (strftimeYMDHM (inst + locOff)))

/-! ### Python string primitives (executable models over the character list) -/

/-- Model of str.strip(): remove leading and trailing whitespace. -/
def stripWS (cs : List Char) : List Char :=
  ((cs.dropWhile Char.isWhitespace).reverse.dropWhile Char.isWhitespace).reverse

/-- Model of str.replace(old, "") for a one-character pattern, the only
shape this program uses: remove every occurrence of the character. -/
def removeChar (c : Char) (cs : List Char) : List Char :=
  cs.filter (fun x => x ≠ c)

/-- Model of str.endswith for a one-character suffix. -/
def endsWithChar (c : Char) (cs : List Char) : Bool :=
  cs.getLast? == some c

/-- Model of str.lower() (ASCII range, which covers every label this
program compares). -/
def pyLower (s : String) : String :=
  ⟨s.toList.map Char.toLower⟩

/-! ### Python numeric literals (models of float() and int()) -/

/-- Digits of a character list as a natural number. -/
def digitsToNat (cs : List Char) : Nat :=
  cs.foldl (fun a c => a * 10 + digitVal c) 0

/-- Sign prefix of a numeric literal. -/
def splitSign (cs : List Char) : Int × List Char :=
  match cs with
  | '-' :: r => (-1, r)
  | '+' :: r => (1, r)
  | r => (1, r)

/-- Modelled from Python float() on decimal literals: optional
surrounding whitespace, optional sign, digits with an optional point
and an optional exponent; none where float() raises ValueError
(inf/nan and underscore separators are not modelled; no input below
exercises them).  The value is kept exact, as a numerator over a
power-of-ten denominator; every comparison made in this development
is exact in IEEE double too. -/
def pyFloatScaled (s : String) : Option (Int × Nat) :=
  let (sgn, cs) := splitSign (stripWS s.toList)
  let intPart := cs.takeWhile Char.isDigit
  let rest := cs.dropWhile Char.isDigit
  let (fracPart, rest2) :=
    match rest with
    | '.' :: r => (r.takeWhile Char.isDigit, r.dropWhile Char.isDigit)
    | r => (([] : List Char), r)
  if intPart.isEmpty ∧ fracPart.isEmpty then none
  else
    let mant : Int := sgn * (digitsToNat (intPart ++ fracPart) : Int)
    match rest2 with
    | [] => some (mant, 10 ^ fracPart.length)
    | e :: r =>
        if e = 'e' ∨ e = 'E' then
          let (esgn, r2) := splitSign r
          if r2 ≠ [] ∧ r2.all Char.isDigit then
            if 0 ≤ esgn then some (mant * 10 ^ digitsToNat r2, 10 ^ fracPart.length)
            else some (mant, 10 ^ (fracPart.length + digitsToNat r2))
          else none
        else none

/-- The rational denoted by the scaled representation of pyFloatScaled. -/
def pyFloat (s : String) : Option ℚ :=
  (pyFloatScaled s).map fun p => mkRat p.1 p.2

/-- Modelled from Python int() on string input: optional surrounding
whitespace, optional sign, one or more digits; none where int()
raises ValueError. -/
def pyInt (s : String) : Option Int :=
  let (sgn, cs) := splitSign (stripWS s.toList)
  if cs ≠ [] ∧ cs.all Char.isDigit then some (sgn * (digitsToNat cs : Int))
  else none

/-! ### parse_number (calendar.py lines 45-62) -/

/-- Embedding of parse_number (calendar.py lines 45-62) in scaled
form: falsy input gives None; otherwise strip whitespace, drop commas,
strip a trailing percent sign, choose the K or M multiplier, parse as
a float (None on a ValueError) and multiply — the multiplication by
the integer multiplier is folded into the exact numerator, which is
what the float multiplication computes on every value in range here. -/
def parse_number_scaled (s : Option String) : Option (Int × Nat) :=
  match s with
  | none => none
  | some s0 =>
      if s0 = "" then none
      else
        let s1 := removeChar ',' (stripWS s0.toList)
        let s2 := if endsWithChar '%' s1 then removeChar '%' s1 else s1
        let (s3, mult) :=
          if endsWithChar 'K' s2 then (removeChar 'K' s2, (1000 : Nat))
          else if endsWithChar 'M' s2 then (removeChar 'M' s2, 1000000)
          else (s2, 1)
        match pyFloatScaled ⟨s3⟩ with
        | none => none
        | some p => some (p.1 * mult, p.2)

/-- The rational magnitude returned by parse_number. -/
def parse_number (s : Option String) : Option ℚ :=
  (parse_number_scaled s).map fun p => mkRat p.1 p.2

/-! ### The canonical event record and the two provider loops -/

/-- The canonical event dictionary built by both provider loops
(calendar.py lines 132-144 and 181-193).  Numeric magnitudes are the
exact rationals of the float model. -/
structure Event where
  provider : String
  title : String
  country : String
  importance : String
  time_utc : Option String
  time_local : Option String
  timezone : String
  actual_value : Option ℚ
  forecast_value : Option ℚ
  previous_value : Option ℚ
  id : String
deriving DecidableEq

/-- The importance lookup table (calendar.py lines 30-34). -/
def IMPORTANCE_MAP : List (String × String) :=
  [("low", "low"), ("medium", "medium"), ("high", "high")]

/-- IMPORTANCE_MAP.get(imp, "medium") (calendar.py line 136). -/
def canonImp (imp : String) : String :=
  ((IMPORTANCE_MAP.lookup imp).getD "medium")

/-- One scraped ForexFactory table row after the select_one calls
(calendar.py lines 108-114): none models a missing (or falsy) cell,
some s a present cell whose stripped text is s (which can be empty,
for instance a cell holding only empty child elements). -/
structure FFRow where
  timeCell : Option String
  titleCell : Option String
  countryCell : Option String
  impactCell : Option String
  actualCell : Option String
  forecastCell : Option String
  previousCell : Option String
deriving DecidableEq

/-- The raw importance label of a ForexFactory row (calendar.py
line 121): the lowercased impact-cell text, or the literal medium
when the cell is missing. -/
def ffImpRaw (row : FFRow) : String :=
  match row.impactCell with
  | some s => pyLower s
  | none => "medium"

/-- The event dictionary a ForexFactory row assembles once it passes
every check (calendar.py lines 129-144). -/
def mkFFEvent (row : FFRow) (title dt_str : String) : Event :=
  { provider := "forex_factory", title := title,
    country := row.countryCell.getD "",
    importance := canonImp (ffImpRaw row),
    time_utc := (convert_time dt_str "America/New_York" "UTC").1,
    time_local := (convert_time dt_str "America/New_York" "UTC").2,
    timezone := "UTC",
    actual_value := parse_number row.actualCell,
    forecast_value := parse_number row.forecastCell,
    previous_value := parse_number row.previousCell,
    id := sha1_id [some "forex_factory", some title,
                   some (row.countryCell.getD ""),
                   (convert_time dt_str "America/New_York" "UTC").1] }

/-- Embedding of the per-row body of ForexFactoryProvider.fetch
(calendar.py lines 107-145).  none models a row that produces no
event: the explicit continue statements for a missing title cell and
the two allow-list filters, and the except branch reached when
time_cell is None (get_text on None raises AttributeError, which the
except block swallows). -/
def ffProcessRow (row : FFRow) (countries importance : List String) : Option Event :=
  match row.titleCell with
  | none => none
  | some title =>
      if countries ≠ [] ∧ row.countryCell.getD "" ∉ countries then none
      else if importance ≠ [] ∧ ffImpRaw row ∉ importance then none
      else
        match row.timeCell with
        | none => none
        | some dt_str => some (mkFFEvent row title dt_str)

/-- One scraped Investing.com table row (calendar.py lines 170-173):
each field models one data attribute, none meaning the attribute is
missing so row.get falls back to its default. -/
structure InvRow where
  eventTitle : Option String
  country : Option String
  importance : Option String
  datetime : Option String
deriving DecidableEq

/-- The raw importance label of an Investing.com row (calendar.py
line 172): the attribute (default medium) lowercased. -/
def invImpRaw (row : InvRow) : String :=
  pyLower (row.importance.getD "medium")

/-- The event dictionary an Investing.com row assembles once it passes
the two filters (calendar.py lines 181-193). -/
def mkInvEvent (row : InvRow) : Event :=
  { provider := "investing_com", title := row.eventTitle.getD "",
    country := row.country.getD "",
    importance := canonImp (invImpRaw row),
    time_utc := (convert_time (row.datetime.getD "") "UTC" "UTC").1,
    time_local := (convert_time (row.datetime.getD "") "UTC" "UTC").2,
    timezone := "UTC",
    actual_value := none, forecast_value := none, previous_value := none,
    id := sha1_id [some "investing_com", some (row.eventTitle.getD ""),
                   some (row.country.getD ""),
                   (convert_time (row.datetime.getD "") "UTC" "UTC").1] }

/-- Embedding of the per-row body of InvestingProvider.fetch
(calendar.py lines 169-194).  none models a row skipped by one of
the two allow-list filters; no other statement in this loop can
raise, and there is no title check. -/
def invProcessRow (row : InvRow) (countries importance : List String) : Option Event :=
  if countries ≠ [] ∧ row.country.getD "" ∉ countries then none
  else if importance ≠ [] ∧ invImpRaw row ∉ importance then none
  else some (mkInvEvent row)

/-! ### notify_upcoming (calendar.py lines 248-265) -/

/-- The event loop of notify_upcoming (calendar.py lines 260-265) with
the interval bounds already reduced to absolute instants: falsy
time_utc is skipped; an unparseable time_utc makes dateparser.parse
raise, which nothing catches, so the whole call raises (modelled by
none); otherwise the event is kept exactly when its instant lies in
the closed interval. -/
def selectUpcoming (events : List Event) (lo hi : Int) : Option (List Event) :=
  match events with
  | [] => some []
  | e :: rest =>
      match e.time_utc with
      | none => selectUpcoming rest lo hi
      | some s =>
          if s = "" then selectUpcoming rest lo hi
          else
            match isoParse s with
            | none => none
            | some t =>
                match selectUpcoming rest lo hi with
                | none => none
                | some l => some (if lo ≤ t && t ≤ hi then e :: l else l)

/-- Embedding of notify_upcoming (calendar.py lines 248-265).  The
current instant, produced inside the function by datetime.now, is
passed explicitly; tz_name only changes how now is represented, never
the instants compared, so it is unused.  The returned list is the
sequence of printed events; none models an uncaught exception
(ValueError or IndexError from the window parsing, or a ParserError
from an unparseable time_utc), in which case nothing printed before
the raise is modelled. -/
def notify_upcoming (events : List Event) (window : String) (_tz_name : String)
    (now : Int) : Option (List Event) :=
  match pyInt ⟨window.toList.dropLast⟩ with
  | none => none
  | some num =>
      let delta : Int :=
        if window.toList.getLast? = some 'h' then 60 * num
        else if window.toList.getLast? = some 'm' then num
        else 1440
      selectUpcoming events now (now + delta)

/-- The specification-side selection predicate: the event has a
time_utc denoting an instant inside the closed interval. -/
def evInWindow (e : Event) (lo hi : Int) : Bool :=
  match e.time_utc with
  | none => false
  | some s =>
      match isoParse s with
      | none => false
      | some t => lo ≤ t && t ≤ hi

/-- A well-formed event in the sense of the CanonicalEvent data model:
its time_utc is absent, empty, or an ISO instant as stored by the
pipeline (this is exactly the class on which notify_upcoming cannot
raise on an event). -/
def wfEvent (e : Event) : Bool :=
  match e.time_utc with
  | none => true
  | some s => s == "" || (isoParse s).isSome

/-- Concrete ForexFactory row with no title cell at all. -/
def ffRowNoTitle : FFRow :=
  { timeCell := some "2024-01-05 08:30", titleCell := none,
    countryCell := some "US", impactCell := some "high",
    actualCell := none, forecastCell := none, previousCell := none }

/-- Concrete ForexFactory row with an unrecognized importance label. -/
def ffRowCritical : FFRow :=
  { timeCell := some "2024-01-05 08:30", titleCell := some "CPI",
    countryCell := some "US", impactCell := some "critical",
    actualCell := none, forecastCell := none, previousCell := none }

/-- Concrete ForexFactory row whose title cell is present but holds an
empty text. -/
def ffRowEmptyTitle : FFRow :=
  { timeCell := some "2024-01-05 08:30", titleCell := some "",
    countryCell := some "US", impactCell := some "high",
    actualCell := none, forecastCell := none, previousCell := none }

/-- Concrete Investing.com row whose title attribute is the empty
string. -/
def invRowEmptyTitle : InvRow :=
  { eventTitle := some "", country := some "US", importance := some "high",
    datetime := some "2024-01-05 08:30" }

/-- Concrete notification events: one instant 23h59m after the witness
now, one 24h01m after it, one with absent time_utc. -/
def wEv1 : Event :=
  { provider := "x", title := "a", country := "US", importance := "high",
    time_utc := some "2024-01-05T23:59:00+00:00", time_local := none,
    timezone := "UTC", actual_value := none, forecast_value := none,
    previous_value := none, id := "1" }

def wEv2 : Event :=
  { provider := "x", title := "b", country := "US", importance := "low",
    time_utc := some "2024-01-06T00:01:00+00:00", time_local := none,
    timezone := "UTC", actual_value := none, forecast_value := none,
    previous_value := none, id := "2" }

def wEv3 : Event :=
  { provider := "x", title := "c", country := "US", importance := "low",
    time_utc := none, time_local := none,
    timezone := "UTC", actual_value := none, forecast_value := none,
    previous_value := none, id := "3" }

/-! ## Theorems -/

-- Known-answer sanity checks for the SHA-1 model.
theorem sha1Hex_empty_kat :
    sha1Hex (utf8Bytes "") = "da39a3ee5e6b4b0d3255bfef95601890afd80709" := by decide

theorem sha1Hex_abc_kat :
    sha1Hex (utf8Bytes "abc") = "a9993e364706816aba3e25717850c26c9cd0d89d" := by decide

-- Sanity: the end-to-end instant of the spec's worked example.
theorem convert_time_example :
    convert_time "2024-01-05 08:30" "America/New_York" "UTC" =
      (some "2024-01-05T13:30:00+00:00", some "2024-01-05 13:30") := by decide

/-- C5: parse_number is total by construction, and takes the specified
values on the six documented inputs ("236K", "3.1%", "1.2M", "",
"abc", "-5K"); magnitudes are exact here and in IEEE double alike. -/
theorem parse_number_values :
    parse_number (some "236K") = some (236000 : ℚ) ∧
    parse_number (some "3.1%") = some ((31 : ℚ) / 10) ∧
    parse_number (some "1.2M") = some (1200000 : ℚ) ∧
    parse_number (some "") = none ∧
    parse_number (some "abc") = none ∧
    parse_number (some "-5K") = some ((-5000 : ℚ)) := by
  have k1 : parse_number_scaled (some "236K") = some (236000, 1) := by decide
  have k2 : parse_number_scaled (some "3.1%") = some (31, 10) := by decide
  have k3 : parse_number_scaled (some "1.2M") = some (12000000, 10) := by decide
  have k4 : parse_number_scaled (some "") = none := by decide
  have k5 : parse_number_scaled (some "abc") = none := by decide
  have k6 : parse_number_scaled (some "-5K") = some (-5000, 1) := by decide
  refine ⟨?_, ?_, ?_, ?_, ?_, ?_⟩ <;>
    norm_num [parse_number, k1, k2, k3, k4, k5, k6,
      Rat.mkRat_eq_divInt, Rat.divInt_eq_div]

/-- C8: sha1_id is a pure function of its argument tuple (its digest is
the SHA-1 of the join of the truthy fields, with no salt of any kind),
and a tuple with absent time_utc hashes identically to the same tuple
with empty-string time_utc, both being excluded from the join. -/
theorem sha1_id_pure_and_absent_empty :
    (∀ args : List (Option String), sha1_id args = sha1Hex (utf8Bytes (joinTruthy args))) ∧
    (∀ p t c : String,
      sha1_id [some p, some t, some c, none] = sha1_id [some p, some t, some c, some ""]) := by
  refine ⟨fun args => rfl, fun p t c => ?_⟩
  have hj : joinTruthy [some p, some t, some c, none] =
      joinTruthy [some p, some t, some c, some ""] := by
    unfold joinTruthy
    rw [show [some p, some t, some c, (none : Option String)] =
          [some p, some t, some c] ++ [none] from rfl,
        show [some p, some t, some c, some ""] =
          [some p, some t, some c] ++ [some ""] from rfl,
        List.filterMap_append, List.filterMap_append,
        show List.filterMap truthyStr [(none : Option String)] = [] from rfl,
        show List.filterMap truthyStr [some ""] = [] from rfl]
  unfold sha1_id
  rw [hj]

/-- C1 counterexample: two tuples of normalized fields that differ in
the time_utc field (absent versus empty string) yet always produce the
same digest, contradicting that any difference in the four fields
changes the digest with overwhelming probability. -/
theorem sha1_id_distinct_tuples_same_digest :
    ([some "forex_factory", some "CPI", some "US", (none : Option String)] ≠
      [some "forex_factory", some "CPI", some "US", some ""]) ∧
    sha1_id [some "forex_factory", some "CPI", some "US", none] =
      sha1_id [some "forex_factory", some "CPI", some "US", some ""] := by decide

/-- C1 (amended): identical tuples always hash identically and, more
generally, the digest is a function of the pipe-join of the truthy
fields alone, so tuples whose joins coincide (absent versus empty
fields, or a field embedding the delimiter) collide with certainty;
distinct joins give distinct digests up to SHA-1 collisions, as in the
concrete instance. -/
theorem sha1_id_join_determined :
    (∀ a b : List (Option String), joinTruthy a = joinTruthy b → sha1_id a = sha1_id b) ∧
    sha1_id [some "forex_factory", some "CPI", some "US"] ≠
      sha1_id [some "forex_factory", some "GDP", some "US"] := by
  constructor
  · intro a b h
    unfold sha1_id
    rw [h]
  · decide

/-- Witness for the amended C1 theorem: two tuples with equal joins
(the delimiter embedded in a field) mapped to an equal digest. -/
theorem sha1_id_join_determined_witness :
    sha1_id [some "a|b", some "c"] = sha1_id [some "a", some "b|c"] :=
  sha1_id_join_determined.1 _ _ (by decide)

/-- C2 counterexample: an unknown source timezone is a timezone-lookup
failure (gettz returns none), yet convert_time does not yield
(absent, absent): the naive time is silently interpreted in the
system-local zone and both components are produced. -/
theorem convert_time_unknown_tz_not_failure :
    gettz "Mars/Olympus" = none ∧
    convert_time "2024-01-05 08:30" "Mars/Olympus" "UTC" ≠ (none, none) := by decide

/-- C2 (amended): a parse failure yields (absent, absent) and nothing
escapes the try block; but a timezone-lookup failure is not a failure
at all — whenever the date string parses, both components are present
regardless of the timezone identifiers. -/
theorem convert_time_failure_semantics (d f t : String) :
    (dateParse d = none → convert_time d f t = (none, none)) ∧
    (∀ w, dateParse d = some w →
      (convert_time d f t).1.isSome ∧ (convert_time d f t).2.isSome) := by
  constructor
  · intro h
    simp [convert_time, h]
  · intro w h
    simp [convert_time, h]

/-- Witness for the amended C2 theorem at concrete inputs: an
unparseable string gives (absent, absent); a parseable string with an
unknown source zone still gives both components. -/
theorem convert_time_failure_semantics_witness :
    convert_time "notadate" "X" "UTC" = (none, none) ∧
    ((convert_time "2024-01-05 08:30" "Mars/Olympus" "UTC").1.isSome ∧
     (convert_time "2024-01-05 08:30" "Mars/Olympus" "UTC").2.isSome) :=
  ⟨(convert_time_failure_semantics "notadate" "X" "UTC").1 (by decide),
   (convert_time_failure_semantics "2024-01-05 08:30" "Mars/Olympus" "UTC").2
     1064441310 (by decide)⟩

/-- C9: for a wall-clock time w expressed in a known zone Z, the UTC
component renders the absolute instant w minus the zone offset, and
the local component renders that same instant back in Z, which is the
original wall-clock time w exactly (minute precision): the two
renderings denote one absolute instant. -/
theorem convert_time_roundtrip (dt Z : String) (w : Nat) (off : Int)
    (hp : dateParse dt = some w) (hz : gettz Z = some off) (hne : Z ≠ "") :
    convert_time dt Z Z =
      (some (utcIsoformat ((w : Int) - off)), some (strftimeYMDHM ((w : Int)))) := by
  simp [convert_time, hp, hz, hne, sub_add_cancel]

/-- Witness for the round-trip theorem: 08:30 America/New_York on
2024-01-05 renders as 13:30 UTC and back as the original 08:30. -/
theorem convert_time_roundtrip_witness :
    dateParse "2024-01-05 08:30" = some 1064441310 ∧
    convert_time "2024-01-05 08:30" "America/New_York" "America/New_York" =
      (some (utcIsoformat ((1064441310 : Int) - (-300))),
       some (strftimeYMDHM ((1064441310 : Nat) : Int))) :=
  ⟨by decide,
   convert_time_roundtrip "2024-01-05 08:30" "America/New_York" 1064441310 (-300)
     (by decide) (by decide) (by decide)⟩

/-- Every canonical importance is one of the three levels. -/
theorem canonImp_mem (s : String) :
    canonImp s ∈ (["low", "medium", "high"] : List String) := by
  cases h1 : s == "low" <;> cases h2 : s == "medium" <;> cases h3 : s == "high" <;>
    simp [canonImp, IMPORTANCE_MAP, List.lookup, h1, h2, h3]

/-- C7: every event either provider loop produces carries an importance
in the set of the three levels (the lookup-table default makes any
unrecognized label medium), and in particular the unrecognized label
critical normalizes to medium. -/
theorem importance_in_range :
    (∀ (row : FFRow) (cs L : List String) (i : String),
      (ffProcessRow row cs L).map Event.importance = some i →
        i ∈ (["low", "medium", "high"] : List String)) ∧
    (∀ (row : InvRow) (cs L : List String) (i : String),
      (invProcessRow row cs L).map Event.importance = some i →
        i ∈ (["low", "medium", "high"] : List String)) ∧
    (ffProcessRow ffRowCritical [] []).map Event.importance = some "medium" := by
  refine ⟨?_, ?_, by decide⟩
  · intro row cs L i h
    unfold ffProcessRow at h
    repeat' split at h
    all_goals simp only [Option.map_none', Option.map_some'] at h
    all_goals first
      | (exfalso; exact Option.noConfusion h)
      | (rw [← Option.some.inj h]; simp only [mkFFEvent]; exact canonImp_mem _)
  · intro row cs L i h
    unfold invProcessRow at h
    repeat' split at h
    all_goals simp only [Option.map_none', Option.map_some'] at h
    all_goals first
      | (exfalso; exact Option.noConfusion h)
      | (rw [← Option.some.inj h]; simp only [mkInvEvent]; exact canonImp_mem _)

/-- Witness for C7 at a concrete row of each provider: produced
importance medium from the raw label critical, and high from high. -/
theorem importance_in_range_witness :
    "medium" ∈ (["low", "medium", "high"] : List String) ∧
    "high" ∈ (["low", "medium", "high"] : List String) :=
  ⟨importance_in_range.1 ffRowCritical [] [] "medium" (by decide),
   importance_in_range.2.1 invRowEmptyTitle [] [] "high" (by decide)⟩

/-- C3 counterexample: a ForexFactory row whose raw label is critical
(canonical importance medium) together with the allow-list containing
exactly medium: the canonical importance is a member of the allow-list,
so the claim demands acceptance, yet the loop rejects the record,
because the filter tests the raw lowercased label. -/
theorem importance_filter_raw_counterexample :
    ffProcessRow ffRowCritical [] ["medium"] = none ∧
    canonImp (ffImpRaw ffRowCritical) = "medium" ∧
    "medium" ∈ (["medium"] : List String) := by decide

/-- C3 (amended): with a non-empty importance allow-list (and the other
checks passing: no country filter, and for ForexFactory a present title
and time cell), a record is rejected if and only if its lowercased raw
importance label is not a member of the allow-list; the canonical
mapping through the lookup table happens only after this filter. -/
theorem importance_filter_raw (L : List String) (hL : L ≠ []) :
    (∀ (row : FFRow) (tt dd : String), row.titleCell = some tt → row.timeCell = some dd →
      ((ffProcessRow row [] L = none) ↔ ffImpRaw row ∉ L)) ∧
    (∀ row : InvRow, (invProcessRow row [] L = none) ↔ invImpRaw row ∉ L) := by
  constructor
  · intro row tt dd ht hd
    by_cases hm : ffImpRaw row ∈ L <;> simp [ffProcessRow, ht, hd, hL, hm]
  · intro row
    by_cases hm : invImpRaw row ∈ L <;> simp [invProcessRow, hL, hm]

/-- Witness for the amended C3 theorem at concrete rows and the
allow-list containing exactly high. -/
theorem importance_filter_raw_witness :
    ((ffProcessRow ffRowCritical [] ["high"] = none) ↔
      ffImpRaw ffRowCritical ∉ (["high"] : List String)) ∧
    ((invProcessRow invRowEmptyTitle [] ["high"] = none) ↔
      invImpRaw invRowEmptyTitle ∉ (["high"] : List String)) :=
  ⟨(importance_filter_raw ["high"] (by decide)).1 ffRowCritical "CPI" "2024-01-05 08:30"
     (by decide) (by decide),
   (importance_filter_raw ["high"] (by decide)).2 invRowEmptyTitle⟩

/-- C4 counterexample: an Investing.com record whose title is the empty
string is not rejected — the loop has no title check at all and
produces a CanonicalEvent with an empty title. -/
theorem empty_title_accepted_counterexample :
    invRowEmptyTitle.eventTitle = some "" ∧
    (invProcessRow invRowEmptyTitle [] []).map Event.title = some "" := by decide

/-- C4 (amended): only the ForexFactory loop rejects on the title, and
only when the title cell is missing altogether; a present cell whose
text is empty passes (with the time cell present and no filters the row
always yields an event), and the Investing.com loop yields an event for
every record when the filters are empty, whatever its title. -/
theorem title_rejection_amended :
    (∀ (row : FFRow) (cs L : List String), row.titleCell = none →
      ffProcessRow row cs L = none) ∧
    (∀ (row : FFRow) (tt dd : String), row.titleCell = some tt → row.timeCell = some dd →
      (ffProcessRow row [] []).isSome = true) ∧
    (∀ row : InvRow, (invProcessRow row [] []).isSome = true) := by
  refine ⟨?_, ?_, ?_⟩
  · intro row cs L h
    simp [ffProcessRow, h]
  · intro row tt dd h1 h2
    simp [ffProcessRow, h1, h2]
  · intro row
    simp [invProcessRow]

/-- Witness for the amended C4 theorem: the three statements at
concrete rows (no title cell, empty title text, empty Investing
title). -/
theorem title_rejection_amended_witness :
    ffProcessRow ffRowNoTitle [] [] = none ∧
    (ffProcessRow ffRowEmptyTitle [] []).isSome = true ∧
    (invProcessRow invRowEmptyTitle [] []).isSome = true :=
  ⟨title_rejection_amended.1 ffRowNoTitle [] [] (by decide),
   title_rejection_amended.2.1 ffRowEmptyTitle "" "2024-01-05 08:30" (by decide) (by decide),
   title_rejection_amended.2.2 invRowEmptyTitle⟩

/-- On well-formed events the notification loop is the order-preserving
filter by the closed-interval window predicate. -/
theorem selectUpcoming_filter (lo hi : Int) :
    ∀ events : List Event, (∀ e ∈ events, wfEvent e = true) →
      selectUpcoming events lo hi = some (events.filter (fun e => evInWindow e lo hi)) := by
  intro events
  induction events with
  | nil => intro _; rfl
  | cons e rest ih =>
      intro hwf
      have he : wfEvent e = true := hwf e (List.mem_cons_self e rest)
      have ihr := ih (fun x hx => hwf x (List.mem_cons_of_mem e hx))
      cases hte : e.time_utc with
      | none => simp [selectUpcoming, List.filter_cons, evInWindow, hte, ihr]
      | some s =>
          by_cases hs : s = ""
          · subst hs
            simp [selectUpcoming, List.filter_cons, evInWindow, hte, ihr,
              show isoParse "" = none from rfl]
          · simp only [wfEvent, hte] at he
            rw [show (s == "") = false by simpa using hs] at he
            simp only [Bool.false_or] at he
            obtain ⟨t, ht⟩ := Option.isSome_iff_exists.mp he
            by_cases hin : (lo ≤ t && t ≤ hi) = true
            · simp [selectUpcoming, List.filter_cons, evInWindow, hte, hs, ht, ihr, hin]
            · simp [selectUpcoming, List.filter_cons, evInWindow, hte, hs, ht, ihr, hin]

/-- C6: whenever the window magnitude parses as an integer and the
events are well-formed canonical events, notify_upcoming returns
exactly the order-preserving subsequence of events whose instant lies
in the closed interval from now to now plus the window; events with
absent (or empty) time_utc are excluded, the unit h means hours, m
means minutes, and any other final character falls back to 24 hours. -/
theorem notify_upcoming_window (events : List Event) (window tzn : String)
    (now num : Int)
    (hnum : pyInt ⟨window.toList.dropLast⟩ = some num)
    (hwf : ∀ e ∈ events, wfEvent e = true) :
    notify_upcoming events window tzn now =
      some (events.filter (fun e => evInWindow e now (now +
        (if window.toList.getLast? = some 'h' then 60 * num
         else if window.toList.getLast? = some 'm' then num
         else 1440)))) := by
  unfold notify_upcoming
  rw [hnum]
  exact selectUpcoming_filter _ _ events hwf

/-- Witness for C6 at the spec's boundary scenario: now at
2024-01-05 00:00 UTC, window 24h, one event 23h59m ahead, one 24h01m
ahead, one with absent time. -/
theorem notify_upcoming_window_witness :
    pyInt ⟨("24h" : String).toList.dropLast⟩ = some 24 ∧
    notify_upcoming [wEv1, wEv2, wEv3] "24h" "UTC" 1064440800 =
      some ([wEv1, wEv2, wEv3].filter (fun e => evInWindow e 1064440800 (1064440800 +
        (if ("24h" : String).toList.getLast? = some 'h' then 60 * 24
         else if ("24h" : String).toList.getLast? = some 'm' then 24
         else 1440)))) :=
  ⟨by decide,
   notify_upcoming_window [wEv1, wEv2, wEv3] "24h" "UTC" 1064440800 24
     (by decide) (by decide)⟩

-- Sanity: the boundary selection is exactly the event 23h59m ahead.
theorem notify_upcoming_boundary :
    notify_upcoming [wEv1, wEv2, wEv3] "24h" "UTC" 1064440800 = some [wEv1] := by decide

/-- C10: a window string whose leading portion is not a decimal
integer makes notify_upcoming raise (int raises ValueError, and for
the empty string the indexing raises IndexError) instead of applying
the 24-hour fallback — the concrete strings day and the empty string
do so — while the fallback fires only when the magnitude parses, in
which case no exception occurs. -/
theorem notify_window_parse_exception :
    (∀ (evs : List Event) (tzn : String) (now : Int),
        notify_upcoming evs "day" tzn now = none) ∧
    (∀ (evs : List Event) (tzn : String) (now : Int),
        notify_upcoming evs "" tzn now = none) ∧
    (∀ (tzn w : String) (now num : Int), pyInt ⟨w.toList.dropLast⟩ = some num →
        (notify_upcoming [] w tzn now).isSome = true) := by
  refine ⟨?_, ?_, ?_⟩
  · intro evs tzn now
    unfold notify_upcoming
    rw [show pyInt ⟨("day" : String).toList.dropLast⟩ = none from by decide]
  · intro evs tzn now
    unfold notify_upcoming
    rw [show pyInt ⟨("" : String).toList.dropLast⟩ = none from by decide]
  · intro tzn w now num h
    unfold notify_upcoming
    rw [h]
    simp [selectUpcoming]

/-- Witness for C10: the two raising windows and a parsing window with
an unrecognized unit that falls back without raising. -/
theorem notify_window_parse_exception_witness :
    notify_upcoming [] "day" "UTC" 0 = none ∧
    notify_upcoming [] "" "UTC" 0 = none ∧
    (notify_upcoming [] "5x" "UTC" 0).isSome = true :=
  ⟨notify_window_parse_exception.1 [] "UTC" 0,
   notify_window_parse_exception.2.1 [] "UTC" 0,
   notify_window_parse_exception.2.2 "UTC" "5x" 0 5 (by decide)⟩



